import Mathlib

/-!
Shallow embedding of the logging and allocator subsystems of the
`c_utilities` repository (`src/logging.c`, `src/allocator.c`,
`include/rcutils/logging.h`), together with theorems checking the
natural-language specification against it.

Modelling conventions:
* C byte strings are modelled as Lean `String` / `List Char` (one byte per
  character); `NULL` string pointers become `Option String`.
* The process-wide mutable globals of `logging.c` become an explicit
  `LoggingState` record threaded through the operations.
* Writes to the standard streams are returned as data rather than performed.
* The varargs message formatting (`vsnprintf`) is abstracted: handlers
  receive the already-rendered user message as an opaque string.
-/

/-- Severity constants from `enum RCUTILS_LOG_SEVERITY` in
`include/rcutils/logging.h`: UNSET=0, DEBUG=10, INFO=20, WARN=30, ERROR=40,
FATAL=50.  Severities are C `int`s, modelled as `Int`. -/
def RCUTILS_LOG_SEVERITY_UNSET : Int := 0

/-- DEBUG severity (10). -/
def RCUTILS_LOG_SEVERITY_DEBUG : Int := 10

/-- INFO severity (20). -/
def RCUTILS_LOG_SEVERITY_INFO : Int := 20

/-- WARN severity (30). -/
def RCUTILS_LOG_SEVERITY_WARN : Int := 30

/-- ERROR severity (40). -/
def RCUTILS_LOG_SEVERITY_ERROR : Int := 40

/-- FATAL severity (50). -/
def RCUTILS_LOG_SEVERITY_FATAL : Int := 50

/-- The caller location triple, from `rcutils_log_location_t` in
`include/rcutils/logging.h` (`function_name`, `file_name`, `line_number`). -/
structure LogLocation where
  function_name : String
  file_name : String
  line_number : Nat
deriving Repr, DecidableEq

/-- An installed output handler: either the library's console handler
(`rcutils_logging_console_output_handler`) or some user-supplied function,
identified abstractly.  A `NULL` handler pointer is `Option.none` at the
use sites. -/
inductive OutputHandler where
  | console
  | custom (id : Nat)
deriving Repr, DecidableEq

/-- The arguments with which `rcutils_log` invokes the active output handler
(`(*output_handler)(location, severity, name, format, &args)` at
`logging.c:101`); the format string and varargs are abstracted as the
rendered message. -/
structure HandlerInvocation where
  location : Option LogLocation
  severity : Int
  name : Option String
  message : String
deriving Repr, DecidableEq

/-- The process-wide mutable globals of `logging.c`:
`g_rcutils_logging_initialized` (line 30),
`g_rcutils_logging_output_format_string` (line 31),
`g_rcutils_logging_output_handler` (line 35, `NULL` initially) and
`g_rcutils_logging_severity_threshold` (line 37, `0` initially). -/
structure LoggingState where
  initialized : Bool
  outputFormat : String
  outputHandler : Option OutputHandler
  severityThreshold : Int
deriving Repr, DecidableEq

/-- The zero-initialized globals of a fresh process: `initialized = false`,
empty format buffer, `NULL` handler, threshold `0`. -/
def initialLoggingState : LoggingState :=
  { initialized := false
    outputFormat := ""
    outputHandler := none
    severityThreshold := 0 }

/-- `RCUTILS_LOGGING_MAX_OUTPUT_FORMAT_LEN` (`logging.c:28`). -/
def RCUTILS_LOGGING_MAX_OUTPUT_FORMAT_LEN : Nat := 2048

/-- `g_rcutils_logging_default_output_format` (`logging.c:32-33`). -/
def g_rcutils_logging_default_output_format : String :=
  "[\x7bseverity\x7d] [\x7bname\x7d]: \x7bmessage\x7d (\x7bfunction_name\x7d() at \x7bfile_name\x7d:\x7bline_number\x7d)"

/-- Result of `rcutils_get_env("RCUTILS_CONSOLE_OUTPUT_FORMAT", &value)`:
`.error msg` when the call fails (non-`NULL` return string), `.ok v` on
success, where `v` is the variable's value (`""` when the variable is
unset). -/
def EnvReadResult : Type := Except String String

/-- `rcutils_logging_initialize` (`logging.c:39-67`), with the environment
read passed in as data and the diagnostics written to `stderr` returned as a
list of lines.  If already initialized, nothing happens.  Otherwise the
console handler is installed, the threshold is set to `INFO`, the format
template is taken from the environment variable when it is readable and
non-empty (the `chars_to_copy` clamp to 2047 bytes followed by `memcpy` is
exactly `String.take` at 2047), and the default template is installed
otherwise, with a diagnostic on read failure; finally the system is marked
initialized. -/
def rcutils_logging_initialize (env : EnvReadResult) (st : LoggingState) :
    LoggingState × List String :=
  if st.initialized then (st, [])
  else
    let st1 := { st with
      outputHandler := some OutputHandler.console
      severityThreshold := RCUTILS_LOG_SEVERITY_INFO }
    match env with
    | Except.ok v =>
        if v ≠ "" then
          ({ st1 with
              outputFormat := v.take (RCUTILS_LOGGING_MAX_OUTPUT_FORMAT_LEN - 1)
              initialized := true }, [])
        else
          ({ st1 with
              outputFormat := g_rcutils_logging_default_output_format
              initialized := true }, [])
    | Except.error e =>
        ({ st1 with
            outputFormat := g_rcutils_logging_default_output_format
            initialized := true },
         ["Failed to get output format from env. variable: " ++ e ++
          ". Using default output format.\n"])

/-- `rcutils_logging_get_severity_threshold` (`logging.c:79-82`). -/
def rcutils_logging_get_severity_threshold (st : LoggingState) : Int :=
  st.severityThreshold

/-- `rcutils_logging_set_severity_threshold` (`logging.c:84-88`): the
`RCUTILS_LOGGING_AUTOINIT` macro (`logging.h:435-438`) runs
`rcutils_logging_initialize()` when the system is uninitialized, then the
threshold global is overwritten with `severity`. -/
def rcutils_logging_set_severity_threshold (env : EnvReadResult)
    (severity : Int) (st : LoggingState) : LoggingState × List String :=
  let (st1, errs) :=
    if st.initialized then (st, []) else rcutils_logging_initialize env st
  ({ st1 with severityThreshold := severity }, errs)

/-- `rcutils_logging_set_output_handler` (`logging.c:74-77`): plain
assignment, no auto-init. -/
def rcutils_logging_set_output_handler (f : Option OutputHandler)
    (st : LoggingState) : LoggingState :=
  { st with outputHandler := f }

/-- `rcutils_log` (`logging.c:90-104`): return silently when
`severity < g_rcutils_logging_severity_threshold`; otherwise invoke the
active output handler when it is non-`NULL`.  The globals are not modified,
so the state is returned unchanged; the second component records the
handler invocation, if any. -/
def rcutils_log (st : LoggingState) (location : Option LogLocation)
    (severity : Int) (name : Option String) (message : String) :
    LoggingState × Option (OutputHandler × HandlerInvocation) :=
  if severity < st.severityThreshold then (st, none)
  else
    match st.outputHandler with
    | some h => (st, some (h, ⟨location, severity, name, message⟩))
    | none => (st, none)

/-- Modelled from the spec: the logger severity map (spec §3 "Logger
Registry", §4.C).  The map implementation is declared in
`include/rcutils/logging.h` but its definition is not among the provided
sources; it is modelled as an association list from logger name to
configured severity. -/
def SeverityMap : Type := List (String × Int)

/-- Modelled from the spec: `set(name, severity)` of §4.C inserts or
overwrites the entry for `name` (the empty-name/default-threshold special
case is handled by the callers in §4.C and is not needed here). -/
def rcutils_logging_set_logger_severity_threshold (reg : SeverityMap)
    (name : String) (severity : Int) : SeverityMap :=
  (name, severity) :: reg.filter (fun p => p.1 ≠ name)

/-- Modelled from the spec: `get(name)` of §4.C as a pure lookup returning
`UNSET` (0) when absent; a looked-up `UNSET` value also means
"no configured value". -/
def severityMapLookup (reg : SeverityMap) (name : String) : Option Int :=
  match reg.lookup name with
  | some s => if s = RCUTILS_LOG_SEVERITY_UNSET then none else some s
  | none => none

/-- Modelled from the spec: the dot-separated proper prefixes of a logger
name, longest first (spec §4.D: for `x.y.z` the list `["x.y", "x"]`). -/
def dotPrefixes (name : String) : List String :=
  let parts := name.splitOn "."
  ((List.range (parts.length - 1)).reverse).map
    (fun k => String.intercalate "." (parts.take (k + 1)))

/-- Modelled from the spec: effective severity resolution (spec §4.D): the
logger's own configured threshold if set, otherwise the first set threshold
among its dot-separated prefixes walked from longest to shortest, otherwise
the default threshold; the empty name resolves directly to the default. -/
def effective_severity (reg : SeverityMap) (defaultThreshold : Int)
    (name : String) : Int :=
  if name = "" then defaultThreshold
  else
    match severityMapLookup reg name with
    | some s => s
    | none =>
        match (dotPrefixes name).findSome? (severityMapLookup reg) with
        | some s => s
        | none => defaultThreshold

/-- Modelled from the spec: `rcutils_find` (declared in `rcutils/find.h`,
definition not among the provided sources): the index of the first
occurrence of a character in a byte string, `none` when absent (the C
function returns `SIZE_MAX`, which the caller detects by comparing against
the number of remaining characters). -/
def rcutils_find (s : List Char) (c : Char) : Option Nat :=
  match s with
  | [] => none
  | x :: xs =>
      if x = c then some 0
      else
        match rcutils_find xs c with
        | some k => some (k + 1)
        | none => none

theorem rcutils_find_lt_length {s : List Char} {c : Char} {k : Nat}
    (h : rcutils_find s c = some k) : k < s.length := by
  induction s generalizing k with
  | nil => simp [rcutils_find] at h
  | cons x xs ih =>
      simp only [rcutils_find] at h
      by_cases hx : x = c
      · simp [hx] at h
        simp only [List.length_cons]
        omega
      · simp [hx] at h
        cases hfind : rcutils_find xs c with
        | none => rw [hfind] at h; simp at h
        | some j =>
            rw [hfind] at h
            simp at h
            have := ih hfind
            simp [List.length_cons]
            omega

/-- A token expansion function: maps the text between `{` and `}` to its
expansion when the token is recognized.  `rcutils_logging_console_output_handler`
instantiates it with `consoleTokenExpansion`. -/
def TokenExpander : Type := String → Option String

/-- The token-recognition chain of `rcutils_logging_console_output_handler`
(`logging.c:277-304`): `severity`, `name`, `message`, `function_name`,
`file_name` (the last two expand to the two characters `""` when the
location is `NULL`), `line_number` (decimal, truncated to 9 digits via the
10-byte buffer; `"0"` when the location is `NULL`). -/
def consoleTokenExpansion (severity_string : String) (name message : String)
    (location : Option LogLocation) : TokenExpander := fun token =>
  if token = "severity" then some severity_string
  else if token = "name" then some name
  else if token = "message" then some message
  else if token = "function_name" then
    some (match location with
          | some loc => loc.function_name
          | none => "\"\"")
  else if token = "file_name" then
    some (match location with
          | some loc => loc.file_name
          | none => "\"\"")
  else if token = "line_number" then
    some (match location with
          | some loc => (toString loc.line_number).take 9
          | none => "0")
  else none

/-- The token-expansion loop of `rcutils_logging_console_output_handler`
(`logging.c:237-321`), on the remaining template characters:
* copy everything up to the next `{` verbatim; when there is none, copy the
  rest and stop;
* at a `{`, look for the next `}` anywhere in the remainder; when there is
  none, copy the remainder verbatim and stop;
* extract the text between the delimiters; when it is a recognized token,
  append its expansion opaquely and resume after the `}`
  (`i += token_len + 2`); otherwise append the single character `{` and
  resume at the next character (`i++`). -/
def expandFormat (expander : TokenExpander) (s : List Char) : List Char :=
  match hfind : rcutils_find s '\x7b' with
  | none => s
  | some k =>
      match rcutils_find (s.drop k) '\x7d' with
      | none => s.take k ++ s.drop k
      | some j =>
          match expander (String.mk (((s.drop k).drop 1).take (j - 1))) with
          | some expansion =>
              s.take k ++ expansion.data ++
                expandFormat expander ((s.drop k).drop (j + 1))
          | none => s.take k ++ '\x7b' :: expandFormat expander ((s.drop k).drop 1)
termination_by s.length
decreasing_by
  all_goals
    have hk := rcutils_find_lt_length hfind
    simp only [List.length_drop]
    omega

/-- The two standard streams. -/
inductive StdStream where
  | stdout
  | stderr
deriving Repr, DecidableEq

/-- The severity switch of `rcutils_logging_console_output_handler`
(`logging.c:159-183`): the stream and upper-case severity string for the
five known severities, `none` for anything else. -/
def consoleSeverityCase (severity : Int) : Option (StdStream × String) :=
  if severity = RCUTILS_LOG_SEVERITY_DEBUG then some (StdStream.stdout, "DEBUG")
  else if severity = RCUTILS_LOG_SEVERITY_INFO then some (StdStream.stdout, "INFO")
  else if severity = RCUTILS_LOG_SEVERITY_WARN then some (StdStream.stderr, "WARN")
  else if severity = RCUTILS_LOG_SEVERITY_ERROR then some (StdStream.stderr, "ERROR")
  else if severity = RCUTILS_LOG_SEVERITY_FATAL then some (StdStream.stderr, "FATAL")
  else none

/-- `rcutils_logging_console_output_handler` (`logging.c:153-332`), with the
varargs formatting abstracted: `message` is the user message after
`vsnprintf` formatting.  For an unknown severity, the diagnostic
`"unknown severity level: <n>\n"` goes to `stderr` and no log line is
rendered; otherwise the format template is expanded against the record and
the result is written, followed by a single newline
(`fprintf(stream, "%s\n", output_buffer)` at `logging.c:322`), to the
severity's stream. -/
def rcutils_logging_console_output_handler (format : String)
    (location : Option LogLocation) (severity : Int) (name message : String) :
    StdStream × List Char :=
  match consoleSeverityCase severity with
  | none =>
      (StdStream.stderr, ("unknown severity level: " ++ toString severity ++ "\n").data)
  | some (stream, severity_string) =>
      (stream,
       expandFormat (consoleTokenExpansion severity_string name message location)
         format.data ++ ['\n'])

/-- The allocator value of `rcutils_allocator_t` (`rcutils/allocator.h`),
with each function pointer modelled as an `Option` (`none` = `NULL`).
Pointers are modelled as `Nat` (`none` = `NULL`); `reallocate` takes the old
pointer and the new size and returns the new pointer or `NULL`; `allocate`
and `deallocate` are only needed for their presence and observable calls
here, so `deallocate` is a unit marker and `allocate` maps a size to a
pointer or `NULL`. -/
structure RcutilsAllocator where
  allocate : Option (Nat → Option Nat)
  deallocate : Option Unit
  reallocate : Option (Option Nat → Nat → Option Nat)

/-- Observable outcome of `rcutils_reallocf`: the returned pointer
(`none` = `NULL`), whether `deallocate` was called on the old pointer, and
whether the invalid-allocator diagnostic was written to `stderr`. -/
structure ReallocfResult where
  result : Option Nat
  deallocCalled : Bool
  diagnosticWritten : Bool
deriving Repr, DecidableEq

/-- `rcutils_reallocf` (`allocator.c:54-70`): when the allocator pointer is
`NULL` or its `reallocate` or `deallocate` member is `NULL`, write the
diagnostic to `stderr` and return `NULL` without deallocating; otherwise
call `reallocate(pointer, size)`, and when it returns `NULL`, call
`deallocate(pointer)`; return the `reallocate` result. -/
def rcutils_reallocf (pointer : Option Nat) (size : Nat)
    (allocator : Option RcutilsAllocator) : ReallocfResult :=
  match allocator with
  | none => ⟨none, false, true⟩
  | some a =>
      match a.reallocate, a.deallocate with
      | some realloc, some _ =>
          match realloc pointer size with
          | none => ⟨none, true, false⟩
          | some q => ⟨some q, false, false⟩
      | _, _ => ⟨none, false, true⟩

/-- The spec's validity predicate (§3): an allocator is valid iff all three
function pointers (`allocate`, `deallocate`, `reallocate`) are non-null;
a `NULL` allocator argument is also invalid. -/
def specAllocatorValid (allocator : Option RcutilsAllocator) : Prop :=
  match allocator with
  | none => False
  | some a => a.allocate.isSome ∧ a.deallocate.isSome ∧ a.reallocate.isSome

theorem rcutils_find_cons_self (c : Char) (xs : List Char) :
    rcutils_find (c :: xs) c = some 0 := by
  simp [rcutils_find]

theorem rcutils_find_cons_ne {x c : Char} (xs : List Char) (h : x ≠ c) :
    rcutils_find (x :: xs) c = (rcutils_find xs c).map (· + 1) := by
  simp only [rcutils_find, if_neg h]
  cases rcutils_find xs c <;> rfl

theorem rcutils_find_of_not_mem {c : Char} {s : List Char} (h : c ∉ s) :
    rcutils_find s c = none := by
  induction s with
  | nil => rfl
  | cons x xs ih =>
      rw [List.mem_cons, not_or] at h
      have hx : x ≠ c := fun hh => h.1 hh.symm
      rw [rcutils_find_cons_ne xs hx, ih h.2]
      rfl

theorem rcutils_find_append_cons {c : Char} {pre : List Char} (post : List Char)
    (h : c ∉ pre) : rcutils_find (pre ++ c :: post) c = some pre.length := by
  induction pre with
  | nil => simpa using rcutils_find_cons_self c post
  | cons x xs ih =>
      rw [List.mem_cons, not_or] at h
      have hx : x ≠ c := fun hh => h.1 hh.symm
      rw [List.cons_append, rcutils_find_cons_ne _ hx, ih h.2]
      simp

/-- One scan step at an unterminated `{`: the remainder is emitted verbatim
(`logging.c:261-270`). -/
theorem expandFormat_no_end_delim (e : TokenExpander) {pre post : List Char}
    (h1 : '\x7b' ∉ pre) (h2 : '\x7d' ∉ post) :
    expandFormat e (pre ++ '\x7b' :: post) = pre ++ '\x7b' :: post := by
  rw [expandFormat]
  split
  next hf => rfl
  next k hf =>
    rw [rcutils_find_append_cons post h1] at hf
    injection hf with hh
    subst hh
    rw [List.take_left, List.drop_left]
    rw [rcutils_find_of_not_mem (s := '\x7b' :: post)
      (by rw [List.mem_cons, not_or]; exact ⟨by decide, h2⟩)]

/-- One scan step at an unrecognized `{token}`: the literal `{` is emitted
and scanning resumes at the next character (`logging.c:305-313`). -/
theorem expandFormat_token_miss (e : TokenExpander) {tok : List Char}
    (rest : List Char) (h1 : '\x7d' ∉ tok) (h2 : e (String.mk tok) = none) :
    expandFormat e ('\x7b' :: (tok ++ '\x7d' :: rest)) =
      '\x7b' :: expandFormat e (tok ++ '\x7d' :: rest) := by
  rw [expandFormat]
  split
  next hf =>
    rw [rcutils_find_cons_self] at hf
    exact absurd hf (by simp)
  next k hf =>
    rw [rcutils_find_cons_self] at hf
    injection hf with hh
    subst hh
    rw [List.drop_zero, List.take_zero,
      rcutils_find_cons_ne _ (by decide : ('\x7b' : Char) ≠ '\x7d'),
      rcutils_find_append_cons rest h1]
    simp only [Option.map_some', List.drop_succ_cons, List.drop_zero,
      Nat.add_sub_cancel, List.take_left, h2, List.nil_append]

/-- One scan step at a recognized `{token}`: the expansion is appended
opaquely and scanning resumes after the closing `}`
(`logging.c:315-321`). -/
theorem expandFormat_token_hit (e : TokenExpander) {tok : List Char}
    {expansion : String} (rest : List Char) (h1 : '\x7d' ∉ tok)
    (h2 : e (String.mk tok) = some expansion) :
    expandFormat e ('\x7b' :: (tok ++ '\x7d' :: rest)) =
      expansion.data ++ expandFormat e rest := by
  rw [expandFormat]
  split
  next hf =>
    rw [rcutils_find_cons_self] at hf
    exact absurd hf (by simp)
  next k hf =>
    rw [rcutils_find_cons_self] at hf
    injection hf with hh
    subst hh
    rw [List.drop_zero, List.take_zero,
      rcutils_find_cons_ne _ (by decide : ('\x7b' : Char) ≠ '\x7d'),
      rcutils_find_append_cons rest h1]
    simp only [Option.map_some', List.drop_succ_cons, List.drop_zero,
      Nat.add_sub_cancel, List.take_left, h2, List.nil_append]
    rw [List.drop_append, List.drop_succ_cons, List.drop_zero]

theorem expandFormat_nil (e : TokenExpander) : expandFormat e [] = [] := by
  simp [expandFormat, rcutils_find]

/-- C3: Calling `logging.initialize()` on an uninitialized system marks the
system initialized, installs the console sink as the active output handler,
and sets the default severity threshold to INFO. -/
theorem claim_C3_initialize_effects (env : EnvReadResult) (st : LoggingState)
    (h : st.initialized = false) :
    ( rcutils_logging_initialize env st).1.initialized = true ∧
    ( rcutils_logging_initialize env st).1.outputHandler = some OutputHandler.console ∧
    ( rcutils_logging_initialize env st).1.severityThreshold = RCUTILS_LOG_SEVERITY_INFO := by
  cases env with
  | ok v =>
      by_cases hv : v = "" <;>
        simp [ rcutils_logging_initialize, h, hv]
  | error e =>
      simp [ rcutils_logging_initialize, h]

theorem claim_C3_initialize_effects_witness :
    initialLoggingState.initialized = false ∧
    (( rcutils_logging_initialize (Except.ok "") initialLoggingState).1.initialized = true ∧
     ( rcutils_logging_initialize (Except.ok "") initialLoggingState).1.outputHandler =
       some OutputHandler.console ∧
     ( rcutils_logging_initialize (Except.ok "") initialLoggingState).1.severityThreshold =
       RCUTILS_LOG_SEVERITY_INFO) :=
  ⟨rfl, claim_C3_initialize_effects (Except.ok "") initialLoggingState rfl⟩

/-- C4: during initialization, a readable non-empty
`RCUTILS_CONSOLE_OUTPUT_FORMAT` value becomes the template truncated to
2047 bytes; otherwise (empty/unset value, or read failure) the default
template is installed, with a stderr diagnostic exactly in the
read-failure case. -/
theorem claim_C4_output_format_selection (st : LoggingState)
    (h : st.initialized = false) :
    (∀ v : String, v ≠ "" →
      ( rcutils_logging_initialize (Except.ok v) st).1.outputFormat =
        v.take (RCUTILS_LOGGING_MAX_OUTPUT_FORMAT_LEN - 1) ∧
      ( rcutils_logging_initialize (Except.ok v) st).2 = []) ∧
    (( rcutils_logging_initialize (Except.ok "") st).1.outputFormat =
        g_rcutils_logging_default_output_format ∧
      ( rcutils_logging_initialize (Except.ok "") st).2 = []) ∧
    (∀ e : String,
      ( rcutils_logging_initialize (Except.error e) st).1.outputFormat =
        g_rcutils_logging_default_output_format ∧
      ( rcutils_logging_initialize (Except.error e) st).2 =
        ["Failed to get output format from env. variable: " ++ e ++
         ". Using default output format.\n"]) := by
  refine ⟨fun v hv => ?_, ?_, fun e => ?_⟩
  · simp [ rcutils_logging_initialize, h, hv]
  · simp [ rcutils_logging_initialize, h]
  · simp [ rcutils_logging_initialize, h]

theorem claim_C4_output_format_selection_witness :
    initialLoggingState.initialized = false ∧
    ( rcutils_logging_initialize (Except.ok "fmt") initialLoggingState).1.outputFormat =
      "fmt".take (RCUTILS_LOGGING_MAX_OUTPUT_FORMAT_LEN - 1) :=
  ⟨rfl,
   ((claim_C4_output_format_selection initialLoggingState rfl).1 "fmt"
     (by decide)).1⟩

/-- C5: the console output handler writes the fully rendered line followed
by exactly one newline to stdout for DEBUG and INFO and to stderr for WARN,
ERROR and FATAL; for any other severity value it writes
`"unknown severity level: <n>"` plus a newline to stderr and returns
without rendering a log line. -/
theorem claim_C5_console_streams (fmt : String) (loc : Option LogLocation)
    (name msg : String) :
    (rcutils_logging_console_output_handler fmt loc RCUTILS_LOG_SEVERITY_DEBUG name msg =
      (StdStream.stdout,
       expandFormat (consoleTokenExpansion "DEBUG" name msg loc) fmt.data ++ ['\n'])) ∧
    (rcutils_logging_console_output_handler fmt loc RCUTILS_LOG_SEVERITY_INFO name msg =
      (StdStream.stdout,
       expandFormat (consoleTokenExpansion "INFO" name msg loc) fmt.data ++ ['\n'])) ∧
    (rcutils_logging_console_output_handler fmt loc RCUTILS_LOG_SEVERITY_WARN name msg =
      (StdStream.stderr,
       expandFormat (consoleTokenExpansion "WARN" name msg loc) fmt.data ++ ['\n'])) ∧
    (rcutils_logging_console_output_handler fmt loc RCUTILS_LOG_SEVERITY_ERROR name msg =
      (StdStream.stderr,
       expandFormat (consoleTokenExpansion "ERROR" name msg loc) fmt.data ++ ['\n'])) ∧
    (rcutils_logging_console_output_handler fmt loc RCUTILS_LOG_SEVERITY_FATAL name msg =
      (StdStream.stderr,
       expandFormat (consoleTokenExpansion "FATAL" name msg loc) fmt.data ++ ['\n'])) ∧
    (∀ s : Int,
      s ∉ ([RCUTILS_LOG_SEVERITY_DEBUG, RCUTILS_LOG_SEVERITY_INFO,
            RCUTILS_LOG_SEVERITY_WARN, RCUTILS_LOG_SEVERITY_ERROR,
            RCUTILS_LOG_SEVERITY_FATAL] : List Int) →
      rcutils_logging_console_output_handler fmt loc s name msg =
        (StdStream.stderr, ("unknown severity level: " ++ toString s ++ "\n").data)) := by
  refine ⟨?_, ?_, ?_, ?_, ?_, fun s hs => ?_⟩
  · simp [rcutils_logging_console_output_handler, consoleSeverityCase,
      RCUTILS_LOG_SEVERITY_DEBUG]
  · simp [rcutils_logging_console_output_handler, consoleSeverityCase,
      RCUTILS_LOG_SEVERITY_DEBUG, RCUTILS_LOG_SEVERITY_INFO]
  · simp [rcutils_logging_console_output_handler, consoleSeverityCase,
      RCUTILS_LOG_SEVERITY_DEBUG, RCUTILS_LOG_SEVERITY_INFO,
      RCUTILS_LOG_SEVERITY_WARN]
  · simp [rcutils_logging_console_output_handler, consoleSeverityCase,
      RCUTILS_LOG_SEVERITY_DEBUG, RCUTILS_LOG_SEVERITY_INFO,
      RCUTILS_LOG_SEVERITY_WARN, RCUTILS_LOG_SEVERITY_ERROR]
  · simp [rcutils_logging_console_output_handler, consoleSeverityCase,
      RCUTILS_LOG_SEVERITY_DEBUG, RCUTILS_LOG_SEVERITY_INFO,
      RCUTILS_LOG_SEVERITY_WARN, RCUTILS_LOG_SEVERITY_ERROR,
      RCUTILS_LOG_SEVERITY_FATAL]
  · simp only [RCUTILS_LOG_SEVERITY_DEBUG, RCUTILS_LOG_SEVERITY_INFO,
      RCUTILS_LOG_SEVERITY_WARN, RCUTILS_LOG_SEVERITY_ERROR,
      RCUTILS_LOG_SEVERITY_FATAL, List.mem_cons, List.mem_singleton] at hs
    push_neg at hs
    obtain ⟨h1, h2, h3, h4, h5⟩ := hs
    simp [rcutils_logging_console_output_handler, consoleSeverityCase,
      RCUTILS_LOG_SEVERITY_DEBUG, RCUTILS_LOG_SEVERITY_INFO,
      RCUTILS_LOG_SEVERITY_WARN, RCUTILS_LOG_SEVERITY_ERROR,
      RCUTILS_LOG_SEVERITY_FATAL, h1, h2, h3, h4, h5]

theorem claim_C5_console_streams_witness :
    rcutils_logging_console_output_handler "t" none 25 "n" "m" =
      (StdStream.stderr, ("unknown severity level: " ++ toString (25 : Int) ++ "\n").data) :=
  (claim_C5_console_streams "t" none "n" "m").2.2.2.2.2 25 (by decide)

/-- C6: during template expansion an unrecognized `{token}` causes exactly
the literal `{` to be appended, with scanning resuming at the character
immediately after that `{` (so the inner text and the `}` are re-examined);
in particular the template `"{nope}{severity}"` for an INFO record renders
as `"{nope}INFO"`. -/
theorem claim_C6_unrecognized_token (e : TokenExpander) (tok rest : List Char)
    (h1 : '\x7d' ∉ tok) (h2 : e (String.mk tok) = none) :
    (expandFormat e ('\x7b' :: (tok ++ '\x7d' :: rest)) =
      '\x7b' :: expandFormat e (tok ++ '\x7d' :: rest)) ∧
    (∀ (name msg : String) (loc : Option LogLocation),
      expandFormat (consoleTokenExpansion "INFO" name msg loc)
        "\x7bnope\x7d\x7bseverity\x7d".data = "\x7bnope\x7dINFO".data) := by
  constructor
  · exact expandFormat_token_miss e rest h1 h2
  · intro name msg loc
    simp +decide [expandFormat, rcutils_find, consoleTokenExpansion]

theorem claim_C6_unrecognized_token_witness :
    expandFormat (fun t => none) ('\x7b' :: (['a'] ++ '\x7d' :: [])) =
      '\x7b' :: expandFormat (fun t => none) (['a'] ++ '\x7d' :: []) :=
  (claim_C6_unrecognized_token (fun t => none) ['a'] [] (by decide) rfl).1

/-- C7: during template expansion a `{` with no matching `}` anywhere in the
remainder of the template causes the entire remainder starting at that `{`
to be emitted verbatim, and expansion stops. -/
theorem claim_C7_unterminated_brace (e : TokenExpander) (pre post : List Char)
    (h1 : '\x7b' ∉ pre) (h2 : '\x7d' ∉ post) :
    expandFormat e (pre ++ '\x7b' :: post) = pre ++ '\x7b' :: post :=
  expandFormat_no_end_delim e h1 h2

theorem claim_C7_unterminated_brace_witness :
    expandFormat (fun t => none) ("abc".data ++ '\x7b' :: "xyz".data) =
      "abc".data ++ '\x7b' :: "xyz".data :=
  claim_C7_unterminated_brace (fun t => none) "abc".data "xyz".data
    (by decide) (by decide)

/-- C10: token expansions are appended as opaque strings and scanning
resumes only after the token's closing `}`, so brace sequences inside an
expansion (e.g. a message containing `"{severity}"`) appear verbatim in the
output rather than being expanded. -/
theorem claim_C10_expansion_verbatim (e : TokenExpander) (tok rest : List Char)
    (expansion : String) (h1 : '\x7d' ∉ tok)
    (h2 : e (String.mk tok) = some expansion) :
    (expandFormat e ('\x7b' :: (tok ++ '\x7d' :: rest)) =
      expansion.data ++ expandFormat e rest) ∧
    (∀ (name : String) (loc : Option LogLocation),
      expandFormat (consoleTokenExpansion "INFO" name "\x7bseverity\x7d" loc)
        "\x7bmessage\x7d".data = "\x7bseverity\x7d".data) := by
  constructor
  · exact expandFormat_token_hit e rest h1 h2
  · intro name loc
    simp +decide [expandFormat, rcutils_find, consoleTokenExpansion]

theorem claim_C10_expansion_verbatim_witness :
    expandFormat (fun t => some "E") ('\x7b' :: (['a'] ++ '\x7d' :: [])) =
      "E".data ++ expandFormat (fun t => some "E") [] :=
  (claim_C10_expansion_verbatim (fun t => some "E") ['a'] [] "E"
    (by decide) rfl).1

/-- C1: the spec requires `log` to gate against the per-name effective
severity threshold, but `rcutils_log` (`logging.c:94`) compares only
against the single process-wide `g_rcutils_logging_severity_threshold`:
with logger `"a"` configured at DEBUG and the default threshold at INFO,
a DEBUG-severity call to logger `"a"` satisfies
`severity >= effective_severity("a")` yet invokes no handler. -/
theorem claim_C1_gating_ignores_logger_name :
    effective_severity
        (rcutils_logging_set_logger_severity_threshold [] "a"
          RCUTILS_LOG_SEVERITY_DEBUG)
        RCUTILS_LOG_SEVERITY_INFO "a" = RCUTILS_LOG_SEVERITY_DEBUG ∧
    RCUTILS_LOG_SEVERITY_DEBUG ≥
      effective_severity
        (rcutils_logging_set_logger_severity_threshold [] "a"
          RCUTILS_LOG_SEVERITY_DEBUG)
        RCUTILS_LOG_SEVERITY_INFO "a" ∧
    (rcutils_log
        { initialized := true
          outputFormat := g_rcutils_logging_default_output_format
          outputHandler := some OutputHandler.console
          severityThreshold := RCUTILS_LOG_SEVERITY_INFO }
        none RCUTILS_LOG_SEVERITY_DEBUG (some "a") "m").2 = none := by
  refine ⟨?_, ?_, ?_⟩ <;> decide

/-- C2 counterexample: `rcutils_log` on the uninitialized fresh-process
state does not initialize the system (it stays uninitialized) and invokes
no handler, contradicting the claimed auto-init and dispatch to the
freshly installed console handler. -/
theorem claim_C2_counterexample :
    (rcutils_log initialLoggingState none RCUTILS_LOG_SEVERITY_INFO
      (some "foo") "hi 7").1.initialized = false ∧
    (rcutils_log initialLoggingState none RCUTILS_LOG_SEVERITY_INFO
      (some "foo") "hi 7").2 = none := by
  decide

/-- C2 (amended): `rcutils_log` performs no auto-init and never modifies
the logging state; when the output handler is `NULL` (as in any
uninitialized fresh process) nothing is dispatched, whatever the severity.
Auto-initialization lives in the `RCUTILS_LOGGING_AUTOINIT` macro used by
the logging macros, not in `rcutils_log` itself. -/
theorem claim_C2_log_no_autoinit (st : LoggingState) (loc : Option LogLocation)
    (severity : Int) (name : Option String) (msg : String) :
    (rcutils_log st loc severity name msg).1 = st ∧
    (st.outputHandler = none → (rcutils_log st loc severity name msg).2 = none) := by
  constructor
  · by_cases hlt : severity < st.severityThreshold
    · simp [rcutils_log, hlt]
    · cases hh : st.outputHandler <;> simp [rcutils_log, hlt, hh]
  · intro h
    by_cases hlt : severity < st.severityThreshold <;> simp [rcutils_log, hlt, h]

theorem claim_C2_log_no_autoinit_witness :
    (rcutils_log initialLoggingState none RCUTILS_LOG_SEVERITY_WARN
      (some "foo") "m").1 = initialLoggingState ∧
    (rcutils_log initialLoggingState none RCUTILS_LOG_SEVERITY_WARN
      (some "foo") "m").2 = none :=
  ⟨(claim_C2_log_no_autoinit initialLoggingState none RCUTILS_LOG_SEVERITY_WARN
      (some "foo") "m").1,
   (claim_C2_log_no_autoinit initialLoggingState none RCUTILS_LOG_SEVERITY_WARN
      (some "foo") "m").2 rfl⟩

/-- An allocator whose `allocate` member is `NULL` but whose `reallocate`
and `deallocate` members are set; invalid per the spec's three-pointer
validity rule, yet accepted by `rcutils_reallocf`. -/
def badAllocator : RcutilsAllocator :=
  { allocate := none
    deallocate := some ()
    reallocate := some (fun p s => some 42) }

/-- C8 counterexample: for an allocator with a `NULL` `allocate` pointer
(invalid per the spec) `rcutils_reallocf` does not return `NULL` with a
diagnostic: `allocator.c:57` checks only `reallocate` and `deallocate`, so
the call goes through to `reallocate` and returns its result. -/
theorem claim_C8_counterexample :
    ¬ specAllocatorValid (some badAllocator) ∧
    (rcutils_reallocf (some 1) 8 (some badAllocator)).result = some 42 ∧
    (rcutils_reallocf (some 1) 8 (some badAllocator)).deallocCalled = false ∧
    (rcutils_reallocf (some 1) 8 (some badAllocator)).diagnosticWritten = false := by
  refine ⟨?_, rfl, rfl, rfl⟩
  simp [specAllocatorValid, badAllocator]

/-- C8 (amended): `rcutils_reallocf` returns `NULL` with a stderr
diagnostic and no `deallocate` call exactly when the allocator argument is
`NULL` or its `reallocate` or `deallocate` member is `NULL` (`allocate` is
not checked); otherwise it calls `reallocate`, deallocates the old pointer
when `reallocate` returned `NULL`, and returns `reallocate`'s result. -/
theorem claim_C8_reallocf_contract (pointer : Option Nat) (size : Nat)
    (allocator : Option RcutilsAllocator) :
    (allocator = none →
      rcutils_reallocf pointer size allocator = ⟨none, false, true⟩) ∧
    (∀ a, allocator = some a → (a.reallocate = none ∨ a.deallocate = none) →
      rcutils_reallocf pointer size allocator = ⟨none, false, true⟩) ∧
    (∀ a f, allocator = some a → a.reallocate = some f → a.deallocate ≠ none →
      ((f pointer size = none →
          rcutils_reallocf pointer size allocator = ⟨none, true, false⟩) ∧
       (∀ q, f pointer size = some q →
          rcutils_reallocf pointer size allocator = ⟨some q, false, false⟩))) := by
  refine ⟨fun h => by subst h; rfl, fun a ha hor => ?_, fun a f ha hre hde => ?_⟩
  · subst ha
    rcases hor with h | h
    · cases hd : a.deallocate <;> simp [rcutils_reallocf, h, hd]
    · cases hr : a.reallocate <;> simp [rcutils_reallocf, h, hr]
  · subst ha
    cases hd : a.deallocate with
    | none => exact absurd hd hde
    | some u =>
        constructor
        · intro hf
          simp [rcutils_reallocf, hre, hd, hf]
        · intro q hf
          simp [rcutils_reallocf, hre, hd, hf]

/-- An allocator whose `reallocate` always fails, for exercising the
deallocate-on-failure path of `rcutils_reallocf`. -/
def failingReallocAllocator : RcutilsAllocator :=
  { allocate := some (fun s => some 7)
    deallocate := some ()
    reallocate := some (fun p s => none) }

theorem claim_C8_reallocf_contract_witness :
    rcutils_reallocf (some 1) 4 (some failingReallocAllocator) =
      ⟨none, true, false⟩ :=
  ((claim_C8_reallocf_contract (some 1) 4 (some failingReallocAllocator)).2.2
    failingReallocAllocator (fun p s => none) rfl rfl
    (by simp [failingReallocAllocator])).1 rfl

/-- C9: after `rcutils_logging_set_severity_threshold(s)` the system is
initialized and `rcutils_logging_get_severity_threshold()` returns `s`;
when the call happens on an uninitialized system the setter auto-initializes
first (installing the console handler) and only then overwrites the
threshold with `s`. -/
theorem claim_C9_set_then_get (env : EnvReadResult) (s : Int)
    (st : LoggingState) (h : st.initialized = false) :
    (rcutils_logging_set_severity_threshold env s st).1.initialized = true ∧
    rcutils_logging_get_severity_threshold
      (rcutils_logging_set_severity_threshold env s st).1 = s ∧
    (rcutils_logging_set_severity_threshold env s st).1.outputHandler =
      some OutputHandler.console ∧
    (∀ st2 : LoggingState, st2.initialized = true →
      (rcutils_logging_set_severity_threshold env s st2).1.initialized = true ∧
      rcutils_logging_get_severity_threshold
        (rcutils_logging_set_severity_threshold env s st2).1 = s) := by
  refine ⟨?_, ?_, ?_, fun st2 h2 => ⟨?_, ?_⟩⟩ <;>
    first
      | (cases env with
          | ok v =>
              by_cases hv : v = "" <;>
                simp [rcutils_logging_set_severity_threshold,
                  rcutils_logging_initialize,
                  rcutils_logging_get_severity_threshold, h, hv]
          | error e =>
              simp [rcutils_logging_set_severity_threshold,
                rcutils_logging_initialize,
                rcutils_logging_get_severity_threshold, h])
      | simp [rcutils_logging_set_severity_threshold,
          rcutils_logging_get_severity_threshold, h2]

theorem claim_C9_set_then_get_witness :
    (rcutils_logging_set_severity_threshold (Except.ok "") 42
      initialLoggingState).1.initialized = true ∧
    rcutils_logging_get_severity_threshold
      (rcutils_logging_set_severity_threshold (Except.ok "") 42
        initialLoggingState).1 = 42 :=
  ⟨(claim_C9_set_then_get (Except.ok "") 42 initialLoggingState rfl).1,
   (claim_C9_set_then_get (Except.ok "") 42 initialLoggingState rfl).2.1⟩
